import Mathlib

/-!
Verification of the Urban Transportation Insights dashboard (src/app.py).

The active script loads three CSV tables, blanket-fills missing values with 0
(`df.fillna(0, inplace=True)`), computes per-table numeric-column projections
(`select_dtypes(include=['float64', 'int64'])`), and defines four stateless
callbacks that slice a dataframe according to UI selections and hand the
result to a charting call.  Below, tables are shallowly embedded as `Frame`s
of `Value` cells, each callback as a Lean function from frames and selection
inputs to a `ChartSpec` (wrapped in `Except String` where the pandas code can
raise a `KeyError`), and Pearson correlation (pandas `DataFrame.corr`) over
the rationals with real-valued quotients, `none` standing for `NaN`.
-/

namespace NavionDash

/-- Cell of a loaded CSV table: a numeric value, a string, or a missing
value (pandas `NaN`). -/
inductive Value where
  | num (q : ℚ)
  | str (s : String)
  | na
deriving DecidableEq, Repr

/-- In-memory table: a list of column names and a list of rows, each row a
list of cells aligned with the column list. -/
structure Frame where
  cols : List String
  rows : List (List Value)
deriving DecidableEq, Repr

/-- Replacement applied by `df.fillna(0, inplace=True)` to every single cell:
a missing value becomes the number 0, everything else is kept. -/
def fillVal (v : Value) : Value := if v = .na then .num 0 else v

/-- Embedding of `df.fillna(0, inplace=True)` (src/app.py lines 17-19): every
missing cell of every column is replaced by the number 0, regardless of the
column's type. -/
def fillna0 (f : Frame) : Frame :=
  ⟨f.cols, f.rows.map (fun r => r.map fillVal)⟩

/-- Lookup of a labelled cell in a row zipped with the column names; absent
labels read as missing. -/
def lookupVal (l : List (String × Value)) (c : String) : Value :=
  match l.find? (fun p => decide (p.1 = c)) with
  | some p => p.2
  | none => .na

/-- Cell of row `r` of frame `f` at column `c` (pandas positional row access
through a column label). -/
def cellD (f : Frame) (r : List Value) (c : String) : Value :=
  lookupVal (f.cols.zip r) c

/-- Column-presence test, `'c' in df.columns`. -/
def hasCol (f : Frame) (c : String) : Bool := f.cols.contains c

/-- Column extraction `df['c']` as the list of that column's cells. -/
def colVals (f : Frame) (c : String) : List Value :=
  f.rows.map (fun r => cellD f r c)

/-- Numeric reading of a cell (non-numeric cells read as 0; in the numeric
projections this case never occurs). -/
def toQ : Value → ℚ
  | .num q => q
  | _ => 0

/-- Column extraction as rationals. -/
def colQ (f : Frame) (c : String) : List ℚ := (colVals f c).map toQ

/-- Test for a numeric cell. -/
def isNumVal : Value → Bool
  | .num _ => true
  | _ => false

/-- A column has a numeric dtype when every one of its cells is numeric. -/
def isNumericCol (f : Frame) (c : String) : Bool := (colVals f c).all isNumVal

/-- Embedding of `df.select_dtypes(include=['float64', 'int64'])`
(src/app.py lines 22-24): keep exactly the columns whose cells are all
numeric. -/
def numericProjection (f : Frame) : Frame :=
  let cs := f.cols.filter (fun c => isNumericCol f c)
  ⟨cs, f.rows.map (fun r => cs.map (fun c => cellD f r c))⟩

/-- Renderable chart description produced by a callback: plotly figures are
abstracted to their kind, title, and the data series handed to the plotly
call.  `emptyChart` is a figure constructed from a title alone
(`px.bar(title=...)` and friends), the "no data" placeholder. -/
inductive ChartSpec where
  | bar (title : String) (xs ys : List Value)
  | line (title : String) (xs ys : List Value)
  | mapScatter (title : String) (lats lons names : List Value)
  | heatmap (z : List (List (Option ℝ))) (xLabels yLabels : List String)
      (colorscale : String)
  | emptyChart (kind title : String)

/-- The three module-level dataframes after the load-time cleaning
(src/app.py lines 12-19). -/
structure Store where
  vehicle : Frame
  transport : Frame
  bike : Frame

/-- Load-time pipeline: each raw table is blanket-filled with 0. -/
def loadStore (v t b : Frame) : Store := ⟨fillna0 v, fillna0 t, fillna0 b⟩

/-- Dataset dispatch shared by `update_columns_options` and
`update_correlation_heatmap` (src/app.py lines 91-96 and 104-109): the
`else` branch of the `if`/`elif` chain falls through to the bike table for
every selector value other than `vehicle` and `transport`. -/
def pickDataset (st : Store) (sel : String) : Frame :=
  if sel = "vehicle" then st.vehicle
  else if sel = "transport" then st.transport
  else st.bike

/-- Numeric projection of the selected dataset (the `*_numeric` module-level
frames). -/
def pickNumeric (st : Store) (sel : String) : Frame :=
  numericProjection (pickDataset st sel)

/-- Embedding of `update_columns_options` (src/app.py lines 90-96); the
label/value option dictionaries are abstracted to the column names they both
carry. -/
def update_columns_options (st : Store) (sel : String) : List String :=
  (pickNumeric st sel).cols

/-- Mean of a list of rationals (`0` on the empty list, where the source has
`NaN`; the difference is absorbed by the zero-variance guard of `pearson`). -/
def listMean (l : List ℚ) : ℚ := l.sum / l.length

/-- Centered cross-product sum `Σ (xᵢ - mean xs) * (yᵢ - mean ys)`; the
normalisation factor `1/(n-1)` of the pandas covariance cancels in the
correlation quotient and is omitted. -/
def covSum (xs ys : List ℚ) : ℚ :=
  (List.zipWith (fun a b => (a - listMean xs) * (b - listMean ys)) xs ys).sum

/-- Pearson correlation coefficient of two equal-length columns as computed
by pandas `DataFrame.corr`: `NaN` (here `none`) when either column has zero
variance (constant, singleton or empty column), else the centered
cross-product sum divided by the product of the standard deviations. -/
noncomputable def pearson (xs ys : List ℚ) : Option ℝ :=
  if covSum xs xs = 0 ∨ covSum ys ys = 0 then none
  else some ((covSum xs ys : ℝ) /
    (Real.sqrt (covSum xs xs) * Real.sqrt (covSum ys ys)))

/-- Correlation matrix `df[selected_columns].corr()` over the given column
list, row and column indexed in selection order. -/
noncomputable def corrMatrix (df : Frame) (cols : List String) :
    List (List (Option ℝ)) :=
  cols.map (fun c1 => cols.map (fun c2 => pearson (colQ df c1) (colQ df c2)))

/-- Embedding of `update_correlation_heatmap` (src/app.py lines 103-125):
pick the selected dataset's numeric projection, replace an absent or empty
column selection (`if not selected_columns`) by the full column list, and
hand the correlation matrix to the annotated-heatmap call; `df[sel]` raises
a `KeyError` when a selected column is not present. -/
noncomputable def update_correlation_heatmap (st : Store) (sel : String)
    (selectedColumns : Option (List String)) (scale : String) :
    Except String ChartSpec :=
  let df := pickNumeric st sel
  let given := selectedColumns.getD []
  let selected := if given.isEmpty then df.cols else given
  if selected.all (fun c => df.cols.contains c) then
    .ok (.heatmap (corrMatrix df selected) selected selected scale)
  else
    .error "KeyError: selected columns not in dataframe"

/-- Embedding of `update_public_transport_graph` (src/app.py lines 132-138):
a placeholder line figure when either required column is absent, else the
line chart of annual passengers over financial year. -/
def update_public_transport_graph (tdf : Frame) : ChartSpec :=
  if (!hasCol tdf "Fin_year" || !hasCol tdf "Pax_annual") then
    .emptyChart "line" "Public Transport Data Missing or Incorrect"
  else
    .line "Public Transport Usage Over Time"
      (colVals tdf "Fin_year") (colVals tdf "Pax_annual")

/-- Row selection of `update_vehicle_registrations_graph` (src/app.py lines
146-149): the sentinel `All` keeps the whole table; any other value keeps
exactly the rows whose `CD_CL_FUEL_ENG` cell equals it as a string, and the
column access raises a `KeyError` when that column is absent. -/
def vehicleFiltered (vdf : Frame) (sel : String) : Except String Frame :=
  if sel = "All" then .ok vdf
  else if hasCol vdf "CD_CL_FUEL_ENG" then
    .ok ⟨vdf.cols,
      vdf.rows.filter (fun r => decide (cellD vdf r "CD_CL_FUEL_ENG" = Value.str sel))⟩
  else .error "KeyError: CD_CL_FUEL_ENG"

/-- Embedding of `update_vehicle_registrations_graph` (src/app.py lines
145-171): filter by vehicle type, then either the missing-column placeholder
or a bar chart whose x series is the raw `POSTCODE` column and whose y
series is the raw `TOTAL1` column, one bar mark per row. -/
def update_vehicle_registrations_graph (vdf : Frame) (sel : String) :
    Except String ChartSpec :=
  match vehicleFiltered vdf sel with
  | .error e => .error e
  | .ok df =>
    if (!hasCol df "POSTCODE" || !hasCol df "TOTAL1") then
      .ok (.emptyChart "bar" "Vehicle Registration Data Missing or Incorrect")
    else
      .ok (.bar ("Vehicle Registrations for " ++ sel)
        (colVals df "POSTCODE") (colVals df "TOTAL1"))

/-- Embedding of `update_bike_infrastructure_map` (src/app.py lines
178-188): the placeholder when `Latitude` or `Longitude` is absent; else
`px.scatter_mapbox` renders one point per row and raises a `KeyError` when
the `hover_name` or `hover_data` columns are absent. -/
def update_bike_infrastructure_map (bdf : Frame) : Except String ChartSpec :=
  if (!hasCol bdf "Latitude" || !hasCol bdf "Longitude") then
    .ok (.emptyChart "mapScatter" "Bike Infrastructure Data Missing or Incorrect")
  else if (hasCol bdf "local_name" && hasCol bdf "facility_left"
      && hasCol bdf "facility_right") then
    .ok (.mapScatter "Bike Infrastructure Distribution"
      (colVals bdf "Latitude") (colVals bdf "Longitude")
      (colVals bdf "local_name"))
  else .error "KeyError: hover columns missing"

/-- Rendered height of a stacked bar chart at abscissa `x`: plotly's default
`barmode` is `relative`, which stacks every bar mark sharing an x position,
so the visible bar at `x` has the sum of the matching y values. -/
def stackedHeight (xs ys : List Value) (x : Value) : ℚ :=
  (((xs.zip ys).filter (fun p => decide (p.1 = x))).map (fun p => toQ p.2)).sum

/-- Rendered stacked-bar height of a callback result at abscissa `x`
(`none` when the result is not a bar chart). -/
def chartHeight : Except String ChartSpec → Value → Option ℚ
  | .ok (.bar _ xs ys), x => some (stackedHeight xs ys x)
  | _, _ => none

/-- Number of bar marks a callback result hands to the bar-chart call. -/
def barMarkCount : Except String ChartSpec → Option Nat
  | .ok (.bar _ xs _) => some xs.length
  | _ => none

/-- Number of distinct values in a list of cells. -/
def distinctCount (l : List Value) : Nat := l.dedup.length

/-- Test for the "no data" placeholder figure. -/
def isNoDataChart : Except String ChartSpec → Bool
  | .ok (.emptyChart _ _) => true
  | _ => false

/-- Number of points a callback result hands to the scatter-map call. -/
def mapPointCount : Except String ChartSpec → Option Nat
  | .ok (.mapScatter _ lats _ _) => some lats.length
  | _ => none

/-- A frame is free of missing-value markers. -/
def noNAFrame (f : Frame) : Bool :=
  f.rows.all (fun r => r.all (fun v => !(decide (v = Value.na))))

/-- A column is constant when any two of its cells are equal. -/
def IsConstantCol (l : List ℚ) : Prop := ∀ x ∈ l, ∀ y ∈ l, x = y

/-- Entry access in a nested list-of-lists matrix. -/
def matEntry (m : List (List (Option ℝ))) (i j : Nat) : Option ℝ :=
  (m.getD i []).getD j none

/-- Vehicle table of the spec's worked example: three rows over the columns
`POSTCODE`, `CD_CL_FUEL_ENG`, `TOTAL1`. -/
def vdfEx : Frame :=
  ⟨["POSTCODE", "CD_CL_FUEL_ENG", "TOTAL1"],
   [[.num 3000, .str "P", .num 10],
    [.num 3000, .str "D", .num 5],
    [.num 3001, .str "P", .num 7]]⟩

/-- Vehicle table lacking the fuel-type column. -/
def vdfNoFuel : Frame := ⟨["POSTCODE", "TOTAL1"], [[.num 3000, .num 10]]⟩

/-- Bike table whose single row has a missing latitude. -/
def bdfMissingLat : Frame :=
  ⟨["Latitude", "Longitude", "local_name", "facility_left", "facility_right"],
   [[.na, .num 144, .str "x", .str "left", .str "right"]]⟩

/-- Two-column all-numeric frame. -/
def frameNum : Frame :=
  ⟨["a", "b"], [[.num 1, .num 2], [.num 2, .num 4]]⟩

/-- Store holding `frameNum` in all three slots. -/
def stEx : Store := ⟨frameNum, frameNum, frameNum⟩

/-- Single-string-column frame with a missing cell. -/
def f9 : Frame := ⟨["name"], [[.na]]⟩

/-- Transport table lacking the `Fin_year` column. -/
def tdfNoYear : Frame := ⟨["Pax_annual"], [[.num 7]]⟩

/-- Two-column numeric frame whose column `b` is constant. -/
def f7 : Frame := ⟨["a", "b"], [[.num 1, .num 5], [.num 2, .num 5]]⟩

instance (l : List ℚ) : Decidable (IsConstantCol l) := by
  unfold IsConstantCol
  infer_instance

/-- Filling a cell never produces a missing marker. -/
theorem fillVal_ne_na (v : Value) : (fillVal v = Value.na) = False := by
  by_cases h : v = Value.na <;> simp [fillVal, h]

/-- Dispatch helper: a selector that is neither `vehicle` nor `transport`
lands on the bike table. -/
theorem pickDataset_fallthrough (st : Store) (s : String)
    (h1 : s ≠ "vehicle") (h2 : s ≠ "transport") : pickDataset st s = st.bike := by
  simp [pickDataset, h1, h2]

/-- C8: if either the `Fin_year` column or the `Pax_annual` column is absent
from the transport dataset, the time-series view returns the placeholder
chart whose title communicates the missing-data condition; the function is
total, so the evaluation cannot fail the caller. -/
theorem transport_missing_column_placeholder (tdf : Frame)
    (h : hasCol tdf "Fin_year" = false ∨ hasCol tdf "Pax_annual" = false) :
    update_public_transport_graph tdf =
      .emptyChart "line" "Public Transport Data Missing or Incorrect" := by
  unfold update_public_transport_graph
  rcases h with h | h <;> simp [h]

/-- Witness for C8 at a transport table lacking `Fin_year`. -/
theorem transport_missing_column_placeholder_witness :
    hasCol tdfNoYear "Fin_year" = false ∧
    update_public_transport_graph tdfNoYear =
      .emptyChart "line" "Public Transport Data Missing or Incorrect" :=
  ⟨by decide, transport_missing_column_placeholder tdfNoYear (Or.inl (by decide))⟩

/-- C9 counterexample: the load-time cleaning fills a missing cell of a
string-typed column with the number 0, not with the string literal
`Unknown`, because the active script blanket-fills every column with 0. -/
theorem fillna_unknown_counterexample :
    colVals (fillna0 f9) "name" = [Value.num 0] ∧
    colVals (fillna0 f9) "name" ≠ [Value.str "Unknown"] := by
  exact ⟨by decide, by decide⟩

/-- C9 (amended): load-time normalization replaces every absent value of
every column with the number 0 regardless of the column's type; afterwards
no column of the dataset contains a missing-value marker. -/
theorem fillna_blanket_zero (f : Frame) :
    (fillna0 f).cols = f.cols ∧
    (fillna0 f).rows = f.rows.map (fun r => r.map fillVal) ∧
    noNAFrame (fillna0 f) = true := by
  refine ⟨rfl, rfl, ?_⟩
  simp only [noNAFrame, fillna0, List.all_map, List.all_eq_true, Function.comp]
  intro r _ v _
  simp [fillVal_ne_na]

/-- C10: any dataset-selector value other than `vehicle` and `transport` —
including values outside the documented three-way enum — makes both the
column-options callback and the heatmap callback fall through to the bike
dataset's numeric projection; both functions are total over arbitrary
selector strings. -/
theorem selector_fallthrough_bike (st : Store) (s : String)
    (cols : Option (List String)) (scale : String)
    (h1 : s ≠ "vehicle") (h2 : s ≠ "transport") :
    update_columns_options st s = update_columns_options st "bike" ∧
    update_correlation_heatmap st s cols scale =
      update_correlation_heatmap st "bike" cols scale := by
  have hb : pickDataset st "bike" = st.bike := by simp [pickDataset]
  have hs := pickDataset_fallthrough st s h1 h2
  constructor
  · simp [update_columns_options, pickNumeric, hs, hb]
  · simp [update_correlation_heatmap, pickNumeric, hs, hb]

/-- Witness for C10 at the out-of-enum selector `journey_to_work`. -/
theorem selector_fallthrough_bike_witness :
    update_columns_options stEx "journey_to_work" = update_columns_options stEx "bike" ∧
    update_correlation_heatmap stEx "journey_to_work" none "Viridis" =
      update_correlation_heatmap stEx "bike" none "Viridis" :=
  selector_fallthrough_bike stEx "journey_to_work" none "Viridis" (by decide) (by decide)

/-- C5: evaluating the heatmap view with an absent column selection or with
an empty one yields the same chart specification as selecting the full
column list of the active dataset's numeric projection. -/
theorem heatmap_empty_selection_eq_all (st : Store) (sel scale : String) :
    update_correlation_heatmap st sel none scale =
      update_correlation_heatmap st sel (some (pickNumeric st sel).cols) scale ∧
    update_correlation_heatmap st sel (some []) scale =
      update_correlation_heatmap st sel (some (pickNumeric st sel).cols) scale := by
  unfold update_correlation_heatmap
  constructor <;> simp

/-- C6 counterexample: with a single selected column — fewer than the two
the claim requires for a real heatmap — the view still returns an ordinary
heatmap specification (the 1-by-1 correlation matrix), not a "no data"
placeholder. -/
theorem heatmap_single_column_counterexample :
    isNoDataChart (update_correlation_heatmap stEx "vehicle" (some ["a"]) "Viridis") = false := rfl

/-- C6 (amended): the heatmap view has no degenerate-case guard at all: it
never returns a "no data" placeholder for any input, and with a single
selected column it returns the ordinary 1-by-1 correlation heatmap. -/
theorem heatmap_no_degenerate_guard :
    (∀ (st : Store) (sel : String) (cols : Option (List String)) (scale : String),
      isNoDataChart (update_correlation_heatmap st sel cols scale) = false) ∧
    (∀ (st : Store) (sel scale c : String),
      (pickNumeric st sel).cols.contains c = true →
      update_correlation_heatmap st sel (some [c]) scale =
        .ok (.heatmap [[pearson (colQ (pickNumeric st sel) c) (colQ (pickNumeric st sel) c)]]
          [c] [c] scale)) := by
  constructor
  · intro st sel cols scale
    unfold update_correlation_heatmap
    dsimp only
    split <;> split <;> rfl
  · intro st sel scale c h
    unfold update_correlation_heatmap
    simp [corrMatrix, h]
    exact List.mem_of_elem_eq_true h

/-- Witness for C6's amended theorem at a concrete store and column. -/
theorem heatmap_no_degenerate_guard_witness :
    (pickNumeric stEx "vehicle").cols.contains "a" = true ∧
    update_correlation_heatmap stEx "vehicle" (some ["a"]) "Viridis" =
      .ok (.heatmap [[pearson (colQ (pickNumeric stEx "vehicle") "a")
          (colQ (pickNumeric stEx "vehicle") "a")]] ["a"] ["a"] "Viridis") :=
  ⟨by decide, heatmap_no_degenerate_guard.2 stEx "vehicle" "Viridis" "a" (by decide)⟩

/-- C3 counterexample: with the fuel-type column absent and a non-sentinel
filter, the postcode view raises a `KeyError` (the filter on line 149 of
src/app.py runs before the missing-column guard on line 151) instead of
returning a "no data" specification. -/
theorem vehicle_missing_fuel_column_counterexample :
    update_vehicle_registrations_graph vdfNoFuel "P" = .error "KeyError: CD_CL_FUEL_ENG" ∧
    isNoDataChart (update_vehicle_registrations_graph vdfNoFuel "P") = false :=
  ⟨rfl, rfl⟩

/-- C3 (amended): the guards that exist are per-view and partial: the
postcode view returns its "no data" chart only when `POSTCODE` or `TOTAL1`
is absent after a successful filter, the bike view only when `Latitude` or
`Longitude` is absent; the postcode view raises a `KeyError` when the
fuel-type column is absent under a non-sentinel filter, the bike view when
its name column is absent; and an empty filtered row set produces an
ordinary empty bar chart, not a "no data" chart. -/
theorem missing_column_guard_behavior :
    (∀ (vdf : Frame) (sel : String) (df : Frame), vehicleFiltered vdf sel = .ok df →
      (!hasCol df "POSTCODE" || !hasCol df "TOTAL1") = true →
      update_vehicle_registrations_graph vdf sel =
        .ok (.emptyChart "bar" "Vehicle Registration Data Missing or Incorrect")) ∧
    (∀ bdf : Frame, (!hasCol bdf "Latitude" || !hasCol bdf "Longitude") = true →
      update_bike_infrastructure_map bdf =
        .ok (.emptyChart "mapScatter" "Bike Infrastructure Data Missing or Incorrect")) ∧
    (∀ (vdf : Frame) (sel : String), sel ≠ "All" → hasCol vdf "CD_CL_FUEL_ENG" = false →
      update_vehicle_registrations_graph vdf sel = .error "KeyError: CD_CL_FUEL_ENG") ∧
    (∀ bdf : Frame, hasCol bdf "Latitude" = true → hasCol bdf "Longitude" = true →
      hasCol bdf "local_name" = false →
      update_bike_infrastructure_map bdf = .error "KeyError: hover columns missing") ∧
    (∀ (vdf : Frame) (sel : String) (df : Frame), vehicleFiltered vdf sel = .ok df →
      df.rows = [] → hasCol df "POSTCODE" = true → hasCol df "TOTAL1" = true →
      update_vehicle_registrations_graph vdf sel =
        .ok (.bar ("Vehicle Registrations for " ++ sel) [] [])) := by
  refine ⟨?_, ?_, ?_, ?_, ?_⟩
  · intro vdf sel df h h2
    simp [update_vehicle_registrations_graph, h, h2]
  · intro bdf h
    simp [update_bike_infrastructure_map, h]
  · intro vdf sel h1 h2
    simp [update_vehicle_registrations_graph, vehicleFiltered, h1, h2]
  · intro bdf h1 h2 h3
    simp [update_bike_infrastructure_map, h1, h2, h3]
  · intro vdf sel df h hrows hp ht
    simp [update_vehicle_registrations_graph, h, hp, ht, colVals, hrows]

/-- Witness for C3's amended theorem: the bike view at a frame lacking the
coordinate columns. -/
theorem missing_column_guard_behavior_witness :
    (!hasCol f9 "Latitude" || !hasCol f9 "Longitude") = true ∧
    update_bike_infrastructure_map f9 =
      .ok (.emptyChart "mapScatter" "Bike Infrastructure Data Missing or Incorrect") :=
  ⟨by decide, missing_column_guard_behavior.2.1 f9 (by decide)⟩

/-- C4 counterexample: the single input row has a missing latitude, so the
claim requires it to be excluded from the rendered points; the view renders
it anyway (one point), at the latitude 0 substituted by the load-time
blanket fill. -/
theorem bike_missing_coordinate_rendered_counterexample :
    mapPointCount (update_bike_infrastructure_map (fillna0 bdfMissingLat)) = some 1 ∧
    (bdfMissingLat.rows.filter (fun r =>
      decide (cellD bdfMissingLat r "Latitude" ≠ Value.na ∧
              cellD bdfMissingLat r "Longitude" ≠ Value.na))).length = 0 ∧
    colVals (fillna0 bdfMissingLat) "Latitude" = [Value.num 0] := by
  exact ⟨by decide, by decide, by decide⟩

/-- C4 (amended): rows whose latitude or longitude is missing in the input
are not excluded: the load-time fill replaces the missing coordinate with 0
and the row is rendered, so the bike view's point count always equals the
total row count; and when the name column is absent the view raises a
`KeyError` rather than returning a "no data" specification. -/
theorem bike_view_renders_all_filled_rows (bdf : Frame)
    (h1 : hasCol bdf "Latitude" = true) (h2 : hasCol bdf "Longitude" = true)
    (h3 : hasCol bdf "local_name" = true) (h4 : hasCol bdf "facility_left" = true)
    (h5 : hasCol bdf "facility_right" = true) :
    (update_bike_infrastructure_map (fillna0 bdf) =
      .ok (.mapScatter "Bike Infrastructure Distribution"
        (colVals (fillna0 bdf) "Latitude") (colVals (fillna0 bdf) "Longitude")
        (colVals (fillna0 bdf) "local_name"))) ∧
    mapPointCount (update_bike_infrastructure_map (fillna0 bdf)) = some bdf.rows.length ∧
    (∀ b2 : Frame, hasCol b2 "Latitude" = true → hasCol b2 "Longitude" = true →
      hasCol b2 "local_name" = false →
      update_bike_infrastructure_map b2 = .error "KeyError: hover columns missing") := by
  have hc : ∀ c, hasCol (fillna0 bdf) c = hasCol bdf c := fun c => rfl
  have hmain : update_bike_infrastructure_map (fillna0 bdf) =
      .ok (.mapScatter "Bike Infrastructure Distribution"
        (colVals (fillna0 bdf) "Latitude") (colVals (fillna0 bdf) "Longitude")
        (colVals (fillna0 bdf) "local_name")) := by
    simp [update_bike_infrastructure_map, hc, h1, h2, h3, h4, h5]
  refine ⟨hmain, ?_, ?_⟩
  · rw [hmain]
    simp [mapPointCount, colVals, fillna0]
  · intro b2 g1 g2 g3
    simp [update_bike_infrastructure_map, g1, g2, g3]

/-- C1: the sentinel `All` makes the postcode view use every row of the
vehicle dataset, any other filter value keeps exactly the rows whose
`CD_CL_FUEL_ENG` cell equals it under case-sensitive string equality, and on
the spec's three-row example the rendered (stacked) bar heights are 15 and 7
for filter `All` and 10 and 7 for filter `P`. -/
theorem vehicle_filter_semantics_and_example :
    (∀ vdf : Frame, vehicleFiltered vdf "All" = .ok vdf) ∧
    (∀ (vdf : Frame) (sel : String), sel ≠ "All" → hasCol vdf "CD_CL_FUEL_ENG" = true →
      vehicleFiltered vdf sel = .ok ⟨vdf.cols,
        vdf.rows.filter (fun r => decide (cellD vdf r "CD_CL_FUEL_ENG" = Value.str sel))⟩) ∧
    chartHeight (update_vehicle_registrations_graph vdfEx "All") (.num 3000) = some 15 ∧
    chartHeight (update_vehicle_registrations_graph vdfEx "All") (.num 3001) = some 7 ∧
    chartHeight (update_vehicle_registrations_graph vdfEx "P") (.num 3000) = some 10 ∧
    chartHeight (update_vehicle_registrations_graph vdfEx "P") (.num 3001) = some 7 := by
  refine ⟨?_, ?_, ?_, ?_, ?_, ?_⟩
  · intro vdf; simp [vehicleFiltered]
  · intro vdf sel h1 h2; simp [vehicleFiltered, h1, h2]
  all_goals
    simp [chartHeight, update_vehicle_registrations_graph, vehicleFiltered, vdfEx,
      stackedHeight, colVals, cellD, lookupVal, hasCol, toQ, List.filter, List.zip]
  all_goals norm_num

/-- Witness for C1 at the example table and the concrete filter `P`. -/
theorem vehicle_filter_semantics_and_example_witness :
    (("P" : String) ≠ "All") ∧ hasCol vdfEx "CD_CL_FUEL_ENG" = true ∧
    vehicleFiltered vdfEx "P" = .ok ⟨vdfEx.cols,
      vdfEx.rows.filter (fun r => decide (cellD vdfEx r "CD_CL_FUEL_ENG" = Value.str "P"))⟩ :=
  ⟨by decide, by decide,
    vehicle_filter_semantics_and_example.2.1 vdfEx "P" (by decide) (by decide)⟩

/-- C2 counterexample: on the spec's own example table the view hands three
bar marks to the chart (one per filtered row) while the filtered rows have
only two distinct postcodes, so the view does not produce exactly one bar
per distinct postcode. -/
theorem vehicle_not_one_bar_per_postcode_counterexample :
    barMarkCount (update_vehicle_registrations_graph vdfEx "All") = some 3 ∧
    distinctCount (colVals vdfEx "POSTCODE") = 2 ∧
    barMarkCount (update_vehicle_registrations_graph vdfEx "All") ≠
      some (distinctCount (colVals vdfEx "POSTCODE")) := by
  exact ⟨by decide, by decide, by decide⟩

/-- Per-index sum of an indicator list vanishes when the pivot is absent. -/
theorem sum_indicator_zero {α : Type} [DecidableEq α] (m : List α) (a : α) (b : ℚ)
    (h : a ∉ m) : (m.map (fun p => if a = p then b else 0)).sum = 0 := by
  induction m with
  | nil => simp
  | cons x t ih =>
    simp only [List.mem_cons, not_or] at h
    simp [h.1, ih h.2]

/-- Over a duplicate-free list containing the pivot, the indicator list sums
to the pivot's weight. -/
theorem sum_indicator_single {α : Type} [DecidableEq α] (m : List α) (a : α) (b : ℚ)
    (hnd : m.Nodup) (ha : a ∈ m) :
    (m.map (fun p => if a = p then b else 0)).sum = b := by
  induction m with
  | nil => cases ha
  | cons x t ih =>
    rcases List.mem_cons.mp ha with h | h
    · subst h
      have hnt : a ∉ t := (List.nodup_cons.mp hnd).1
      simp [sum_indicator_zero t a b hnt]
    · have hx : ¬(a = x) := by
        rintro rfl
        exact (List.nodup_cons.mp hnd).1 h
      simp [hx, ih (List.nodup_cons.mp hnd).2 h]

/-- A fiber over a key absent from the first components is empty. -/
theorem filter_fst_eq_nil {α β : Type} [DecidableEq α] (l : List (α × β)) (a : α)
    (h : a ∉ l.map Prod.fst) : l.filter (fun q => decide (q.1 = a)) = [] := by
  induction l with
  | nil => rfl
  | cons x t ih =>
    simp only [List.map_cons, List.mem_cons, not_or] at h
    have hx : ¬(x.1 = a) := fun hh => h.1 hh.symm
    simp [List.filter_cons, hx, ih h.2]

/-- Fiberwise summation: summing each key's fiber over the distinct keys
recovers the total of the second components. -/
theorem fiber_sum {α : Type} [DecidableEq α] (l : List (α × ℚ)) :
    ((l.map Prod.fst).dedup.map
      (fun p => ((l.filter (fun q => decide (q.1 = p))).map Prod.snd).sum)).sum
    = (l.map Prod.snd).sum := by
  induction l with
  | nil => simp
  | cons x t ih =>
    obtain ⟨a, b⟩ := x
    have hF : ∀ p : α, ((((a, b) :: t).filter (fun q => decide (q.1 = p))).map Prod.snd).sum
        = (if a = p then b else 0) + ((t.filter (fun q => decide (q.1 = p))).map Prod.snd).sum := by
      intro p
      by_cases h : a = p <;> simp [List.filter_cons, h]
    simp only [List.map_cons, List.sum_cons]
    by_cases hmem : a ∈ t.map Prod.fst
    · rw [List.dedup_cons_of_mem hmem]
      simp only [hF, List.sum_map_add]
      rw [ih, sum_indicator_single _ a b (List.nodup_dedup _) (List.mem_dedup.mpr hmem)]
    · rw [List.dedup_cons_of_not_mem hmem]
      simp only [List.map_cons, List.sum_cons, hF, List.sum_map_add]
      rw [ih, sum_indicator_zero _ a b (fun hc => hmem (List.mem_dedup.mp hc)),
        filter_fst_eq_nil t a hmem]
      simp

/-- Stacked height over columns extracted from the same row list is the
fiberwise sum over the rows. -/
theorem stackedHeight_map {ρ : Type} (rows : List ρ) (cx cy : ρ → Value) (p : Value) :
    stackedHeight (rows.map cx) (rows.map cy) p
      = ((rows.filter (fun r => decide (cx r = p))).map (fun r => toQ (cy r))).sum := by
  unfold stackedHeight
  rw [List.zip_map' cx cy rows, List.filter_map]
  simp [List.map_map, Function.comp_def]

/-- Summing the stacked heights over the distinct x values recovers the
total of the y column. -/
theorem stacked_lossless {ρ : Type} (rows : List ρ) (cx cy : ρ → Value) :
    ((rows.map cx).dedup.map (fun p => stackedHeight (rows.map cx) (rows.map cy) p)).sum
      = ((rows.map cy).map toQ).sum := by
  have h := fiber_sum (l := rows.map (fun r => (cx r, toQ (cy r))))
  simp only [List.map_map, List.filter_map, Function.comp] at h
  simp only [stackedHeight_map, List.map_map, Function.comp]
  exact h

/-- C2 (amended): the postcode view does not group rows: it hands one bar
mark per filtered row to the chart, with the raw postcode and total columns
as series; under plotly's default relative bar mode the rendered height at
each postcode equals the sum of that postcode's totals, and the sum of the
rendered per-postcode heights equals the sum of the filtered rows' raw
totals (the stacking is lossless). -/
theorem vehicle_view_stacked_aggregation (vdf : Frame) (sel : String) (df : Frame)
    (hf : vehicleFiltered vdf sel = .ok df)
    (hp : hasCol df "POSTCODE" = true) (ht : hasCol df "TOTAL1" = true) :
    update_vehicle_registrations_graph vdf sel =
      .ok (.bar ("Vehicle Registrations for " ++ sel)
        (colVals df "POSTCODE") (colVals df "TOTAL1")) ∧
    (∀ p : Value, stackedHeight (colVals df "POSTCODE") (colVals df "TOTAL1") p =
      ((df.rows.filter (fun r => decide (cellD df r "POSTCODE" = p))).map
        (fun r => toQ (cellD df r "TOTAL1"))).sum) ∧
    ((colVals df "POSTCODE").dedup.map
      (fun p => stackedHeight (colVals df "POSTCODE") (colVals df "TOTAL1") p)).sum
      = ((colVals df "TOTAL1").map toQ).sum := by
  refine ⟨?_, ?_, ?_⟩
  · simp [update_vehicle_registrations_graph, hf, hp, ht]
  · intro p
    exact stackedHeight_map df.rows (fun r => cellD df r "POSTCODE")
      (fun r => cellD df r "TOTAL1") p
  · exact stacked_lossless df.rows (fun r => cellD df r "POSTCODE")
      (fun r => cellD df r "TOTAL1")

/-- Witness for C2's amended theorem at the example table with filter `All`. -/
theorem vehicle_view_stacked_aggregation_witness :
    vehicleFiltered vdfEx "All" = .ok vdfEx ∧
    update_vehicle_registrations_graph vdfEx "All" =
      .ok (.bar ("Vehicle Registrations for " ++ "All")
        (colVals vdfEx "POSTCODE") (colVals vdfEx "TOTAL1")) :=
  ⟨rfl, (vehicle_view_stacked_aggregation vdfEx "All" vdfEx rfl (by decide) (by decide)).1⟩

/-- Centered cross-product sums are symmetric in their two columns. -/
theorem covSum_comm (xs ys : List ℚ) : covSum xs ys = covSum ys xs := by
  unfold covSum
  rw [List.zipWith_comm]
  have hfun : (fun b a => (a - listMean xs) * (b - listMean ys))
      = (fun a b : ℚ => (a - listMean ys) * (b - listMean xs)) := by
    funext u v
    ring
  rw [hfun]

/-- Self cross-product sum as a sum of squared deviations. -/
theorem covSum_self_eq (xs : List ℚ) :
    covSum xs xs = (xs.map (fun a => (a - listMean xs) * (a - listMean xs))).sum := by
  unfold covSum
  rw [List.zipWith_same]

/-- Squared-deviation sums are nonnegative. -/
theorem covSum_self_nonneg (xs : List ℚ) : 0 ≤ covSum xs xs := by
  rw [covSum_self_eq]
  apply List.sum_nonneg
  intro x hx
  simp only [List.mem_map] at hx
  obtain ⟨a, _, rfl⟩ := hx
  exact mul_self_nonneg _

/-- A sum of nonnegative rationals vanishes only if every term does. -/
theorem sum_nonneg_eq_zero {l : List ℚ} (hnn : ∀ x ∈ l, 0 ≤ x) (h : l.sum = 0) :
    ∀ x ∈ l, x = 0 := by
  induction l with
  | nil => intro x hx; cases hx
  | cons a t ih =>
    have ha : 0 ≤ a := hnn a (List.mem_cons_self a t)
    have hts : 0 ≤ t.sum :=
      List.sum_nonneg (fun x hx => hnn x (List.mem_cons_of_mem _ hx))
    rw [List.sum_cons] at h
    have ha0 : a = 0 := by linarith
    have ht0 : t.sum = 0 := by linarith
    intro x hx
    rcases List.mem_cons.mp hx with hxa | hxt
    · rw [hxa, ha0]
    · exact ih (fun y hy => hnn y (List.mem_cons_of_mem _ hy)) ht0 x hxt

/-- Pearson correlation is symmetric in its two columns. -/
theorem pearson_comm (xs ys : List ℚ) : pearson xs ys = pearson ys xs := by
  unfold pearson
  rw [covSum_comm xs ys]
  by_cases hx : covSum xs xs = 0 <;> by_cases hy : covSum ys ys = 0 <;>
    simp [hx, hy, mul_comm]

/-- Pearson correlation of a column with itself: `NaN` exactly at zero
variance, and 1 otherwise. -/
theorem pearson_self (xs : List ℚ) :
    pearson xs xs = if covSum xs xs = 0 then none else some 1 := by
  unfold pearson
  by_cases h : covSum xs xs = 0
  · simp [h]
  · have h0 : (0 : ℝ) ≤ ((covSum xs xs : ℚ) : ℝ) :=
      Rat.cast_nonneg.mpr (covSum_self_nonneg xs)
    have hne : ((covSum xs xs : ℚ) : ℝ) ≠ 0 := Rat.cast_ne_zero.mpr h
    simp only [h, or_self, if_false]
    rw [Real.mul_self_sqrt h0, div_self hne]

/-- Lists whose members all equal `a` sum to `length * a`. -/
theorem const_sum (l : List ℚ) (a : ℚ) (h : ∀ x ∈ l, x = a) :
    l.sum = l.length * a := by
  induction l with
  | nil => simp
  | cons b t ih =>
    have hb := h b (List.mem_cons_self b t)
    have ht := fun x hx => h x (List.mem_cons_of_mem _ hx)
    rw [List.sum_cons, hb, ih ht, List.length_cons]
    push_cast
    ring

/-- The mean of a nonempty constant list is its constant value. -/
theorem const_mean (a : ℚ) (t : List ℚ) (h : ∀ x ∈ (a :: t), x = a) :
    listMean (a :: t) = a := by
  unfold listMean
  rw [const_sum _ a h]
  have hlen : (((a :: t).length : ℚ)) ≠ 0 := Nat.cast_ne_zero.mpr (by simp)
  exact mul_div_cancel_left₀ a hlen

/-- A column has zero squared-deviation sum exactly when it is constant. -/
theorem covSum_self_zero_iff (xs : List ℚ) :
    covSum xs xs = 0 ↔ IsConstantCol xs := by
  constructor
  · intro h
    rw [covSum_self_eq] at h
    have hz := sum_nonneg_eq_zero (l := xs.map (fun a => (a - listMean xs) * (a - listMean xs)))
      (fun x hx => by
        simp only [List.mem_map] at hx
        obtain ⟨a, _, rfl⟩ := hx
        exact mul_self_nonneg _) h
    have hmean : ∀ a ∈ xs, a = listMean xs := by
      intro a ha
      have := hz _ (List.mem_map_of_mem (fun a => (a - listMean xs) * (a - listMean xs)) ha)
      have := mul_self_eq_zero.mp this
      linarith
    intro x hx y hy
    rw [hmean x hx, hmean y hy]
  · intro hc
    cases xs with
    | nil => rfl
    | cons a t =>
      have hall : ∀ x ∈ (a :: t), x = a :=
        fun x hx => hc x hx a (List.mem_cons_self a t)
      rw [covSum_self_eq]
      apply List.sum_eq_zero
      intro x hx
      simp only [List.mem_map] at hx
      obtain ⟨b, hb, rfl⟩ := hx
      rw [hall b hb, const_mean a t hall]
      ring

/-- Element access through `map` at an in-range index. -/
theorem getD_map_of_lt {α β : Type} (l : List α) (f : α → β) (i : Nat) (d : β) (da : α)
    (hi : i < l.length) : (l.map f).getD i d = f (l.getD i da) := by
  rw [List.getD_eq_getElem?_getD, List.getD_eq_getElem?_getD, List.getElem?_map,
    List.getElem?_eq_getElem hi]
  rfl

/-- An entry of the correlation matrix is the Pearson coefficient of the two
indexed columns. -/
theorem corrMatrix_entry (df : Frame) (cols : List String) (i j : Nat)
    (hi : i < cols.length) (hj : j < cols.length) :
    matEntry (corrMatrix df cols) i j
      = pearson (colQ df (cols.getD i "")) (colQ df (cols.getD j "")) := by
  unfold corrMatrix matEntry
  rw [getD_map_of_lt cols _ i [] "" hi, getD_map_of_lt cols _ j none "" hj]

/-- C7: for every frame and every nonempty selection of its numeric-
projection columns, the correlation matrix the heatmap view computes is
symmetric in its row/column indexing, and each diagonal entry is 1 except
that a constant column's diagonal entry is `NaN` (here `none`) rather than
a failure. -/
theorem correlation_matrix_symmetric_diagonal (f : Frame) (cols : List String)
    (hne : cols ≠ []) (hsub : ∀ c ∈ cols, c ∈ (numericProjection f).cols) :
    (∀ i j, i < cols.length → j < cols.length →
      matEntry (corrMatrix (numericProjection f) cols) i j
        = matEntry (corrMatrix (numericProjection f) cols) j i) ∧
    (∀ i, i < cols.length →
      (IsConstantCol (colQ (numericProjection f) (cols.getD i "")) →
        matEntry (corrMatrix (numericProjection f) cols) i i = none) ∧
      (¬IsConstantCol (colQ (numericProjection f) (cols.getD i "")) →
        matEntry (corrMatrix (numericProjection f) cols) i i = some 1)) := by
  refine ⟨?_, ?_⟩
  · intro i j hi hj
    rw [corrMatrix_entry _ _ i j hi hj, corrMatrix_entry _ _ j i hj hi, pearson_comm]
  · intro i hi
    constructor
    · intro hc
      rw [corrMatrix_entry _ _ i i hi hi, pearson_self,
        if_pos ((covSum_self_zero_iff _).mpr hc)]
    · intro hc
      rw [corrMatrix_entry _ _ i i hi hi, pearson_self,
        if_neg (fun h0 => hc ((covSum_self_zero_iff _).mp h0))]

/-- Witness for C7 at a concrete two-column frame whose second column is
constant. -/
theorem correlation_matrix_symmetric_diagonal_witness :
    matEntry (corrMatrix (numericProjection f7) ["a", "b"]) 0 1
      = matEntry (corrMatrix (numericProjection f7) ["a", "b"]) 1 0 ∧
    matEntry (corrMatrix (numericProjection f7) ["a", "b"]) 0 0 = some 1 ∧
    matEntry (corrMatrix (numericProjection f7) ["a", "b"]) 1 1 = none := by
  have h := correlation_matrix_symmetric_diagonal f7 ["a", "b"] (by decide) (by decide)
  refine ⟨h.1 0 1 (by decide) (by decide), ?_, ?_⟩
  · exact (h.2 0 (by decide)).2 (by decide)
  · exact (h.2 1 (by decide)).1 (by decide)

/-- Witness for C4's amended theorem at the concrete bike table with a
missing latitude. -/
theorem bike_view_renders_all_filled_rows_witness :
    hasCol bdfMissingLat "Latitude" = true ∧
    mapPointCount (update_bike_infrastructure_map (fillna0 bdfMissingLat)) =
      some bdfMissingLat.rows.length :=
  ⟨by decide,
    (bike_view_renders_all_filled_rows bdfMissingLat (by decide) (by decide) (by decide)
      (by decide) (by decide)).2.1⟩

end NavionDash
